import Mathlib

/-!
Shallow embedding of the daily-focus rules engine (src/src/App.tsx, with the
task-named variant in src/unnamed/part_000 sharing identical handler logic).

Timestamps (`new Date()`, `Date.now()`) are modelled as explicit `Nat`
parameters supplied by the caller; the fresh task id `Date.now().toString()`
becomes `toString now`.  `focusTime` is an `Int` because the JS arithmetic
`25 - Math.floor(timer / 60)` may be negative for timers above 1560 seconds.
UI-state flags touched by the handlers (`showUpgradeModal`,
`showMorningModal`, `showReflectionModal`) are carried explicitly.
-/

namespace DailyFocus

/-- Embedding of JavaScript `String.prototype.trim()`: strip leading and
trailing whitespace.  (JS strips all Unicode whitespace; `Char.isWhitespace`
covers space, tab, CR and LF, which suffices for the texts this program
handles, and the rules below only ever test whether the trimmed string is
empty.) -/
def jsTrim (s : String) : String :=
  ⟨((s.data.dropWhile Char.isWhitespace).reverse.dropWhile Char.isWhitespace).reverse⟩

structure TimeSlot where
  start : Nat
  stop : Nat
deriving Repr, DecidableEq

structure Commitment where
  id : String
  text : String
  completed : Bool
  timeSlot : Option TimeSlot
  createdAt : Nat
  locked : Bool
deriving Repr, DecidableEq

structure DayData where
  date : String
  commitments : List Commitment
  focusScore : Nat
  reflection : String
  morningQuestion : String
  completed : Bool
  focusTime : Int
  lastUpdated : Nat
deriving Repr, DecidableEq

structure FocusMode where
  isActive : Bool
  currentCommitmentId : Option String
  timer : Nat
deriving Repr, DecidableEq

structure UiState where
  showMorningModal : Bool
  showReflectionModal : Bool
  showUpgradeModal : Bool
  isDragging : Bool
deriving Repr, DecidableEq

structure UserSettings where
  isPro : Bool
deriving Repr, DecidableEq

/-- `commitmentsCountSelector` (App.tsx lines 138-148). -/
structure CommitmentsCount where
  total : Nat
  completed : Nat
  locked : Nat
deriving Repr, DecidableEq

def commitmentsCountSelector (day : DayData) : CommitmentsCount :=
  { total := day.commitments.length
    completed := (day.commitments.filter (fun c => c.completed)).length
    locked := (day.commitments.filter (fun c => c.locked)).length }

/-- `focusScoreSelector` (App.tsx lines 150-182): fixed-weight additive score,
`hasEditsAfterLock` is the hard-coded `false` of line 175. -/
def focusScoreSelector (day : DayData) : Nat :=
  let commitments := commitmentsCountSelector day
  let score : Nat := 0
  let score := if commitments.completed = commitments.total ∧ 0 < commitments.total
    then score + 40 else score
  let score := if 0 < day.focusTime then score + 20 else score
  let score := if 0 < (jsTrim day.reflection).length then score + 20 else score
  let hasLockedCommitments := day.commitments.any (fun c => c.locked)
  let hasEditsAfterLock := false
  let score := if hasLockedCommitments && !hasEditsAfterLock then score + 20 else score
  min score 100

/-- `handleAddCommitment` (App.tsx lines 256-281); `handleAddTask` in
part_000 lines 859-887 is identical on day/ui state. -/
def handleAddCommitment (now : Nat) (isPro : Bool) (day : DayData)
    (ui : UiState) : DayData × UiState :=
  if 3 ≤ day.commitments.length ∧ isPro = false then
    (day, { ui with showUpgradeModal := true })
  else if 4 ≤ day.commitments.length then
    (day, ui)
  else
    ({ day with
        commitments := day.commitments ++
          [{ id := toString now, text := "", completed := false,
             timeSlot := none, createdAt := now, locked := false }]
        lastUpdated := now },
     ui)

/-- `handleUpdateCommitment` (App.tsx lines 283-291): replaces the text of the
matching commitment with no lock check.  (The JS spread also attaches a stray
`lastUpdated` property absent from the `Commitment` interface; it is outside
the declared data model and not represented.) -/
def handleUpdateCommitment (now : Nat) (id text : String) (day : DayData) : DayData :=
  { day with
    commitments := day.commitments.map fun c =>
      if c.id = id then { c with text := text } else c
    lastUpdated := now }

/-- `handleDeleteCommitment` (App.tsx lines 293-299): filters out the matching
commitment with no lock check. -/
def handleDeleteCommitment (now : Nat) (id : String) (day : DayData) : DayData :=
  { day with
    commitments := day.commitments.filter fun c => c.id ≠ id
    lastUpdated := now }

/-- `handleToggleComplete` (App.tsx lines 301-309). -/
def handleToggleComplete (now : Nat) (id : String) (day : DayData) : DayData :=
  { day with
    commitments := day.commitments.map fun c =>
      if c.id = id then { c with completed := !c.completed } else c
    lastUpdated := now }

/-- `handleStartFocusMode` (App.tsx lines 311-327): unconditionally locks
every commitment and activates the 25-minute session. -/
def handleStartFocusMode (now : Nat) (commitmentId : String)
    (day : DayData) : DayData × FocusMode :=
  ({ day with
      commitments := day.commitments.map fun c => { c with locked := true }
      lastUpdated := now },
   { isActive := true, currentCommitmentId := some commitmentId, timer := 25 * 60 })

/-- `handleStopFocusMode` (App.tsx lines 329-344). -/
def handleStopFocusMode (now : Nat) (day : DayData)
    (focus : FocusMode) : DayData × FocusMode :=
  let focusTimeMinutes : Int := 25 - ((focus.timer : Int) / 60)
  ({ day with focusTime := day.focusTime + focusTimeMinutes, lastUpdated := now },
   { isActive := false, currentCommitmentId := none, timer := 0 })

/-- `handleSubmitMorningQuestion` (App.tsx lines 346-353). -/
def handleSubmitMorningQuestion (now : Nat) (answer : String) (day : DayData)
    (ui : UiState) : DayData × UiState :=
  ({ day with morningQuestion := answer, lastUpdated := now },
   { ui with showMorningModal := false })

/-- `handleSubmitReflection` (App.tsx lines 355-363): sets the reflection,
marks the day completed, closes the reflection modal — unconditionally. -/
def handleSubmitReflection (now : Nat) (reflection : String) (day : DayData)
    (ui : UiState) : DayData × UiState :=
  ({ day with reflection := reflection, completed := true, lastUpdated := now },
   { ui with showReflectionModal := false })

/-- `ReflectionModal.handleSubmit` (App.tsx lines 1088-1093): calls the
submit handler with the trimmed text only when it is non-empty (JS string
truthiness). -/
def reflectionModalSubmit (now : Nat) (reflection : String) (day : DayData)
    (ui : UiState) : DayData × UiState :=
  if jsTrim reflection ≠ "" then handleSubmitReflection now (jsTrim reflection) day ui
  else (day, ui)

/-- `handleDailyReset` (App.tsx lines 365-389): replaces the three state atoms
wholesale; the prior state argument is discarded exactly as the source's
`setDayData`/`setUi`/`setFocusMode` calls discard it. -/
def handleDailyReset (dateStr : String) (now : Nat)
    (_prior : DayData × UiState × FocusMode) : DayData × UiState × FocusMode :=
  ({ date := dateStr, commitments := [], focusScore := 0, reflection := ""
     morningQuestion := "", completed := false, focusTime := 0, lastUpdated := now },
   { showMorningModal := true, showReflectionModal := false
     showUpgradeModal := false, isDragging := false },
   { isActive := false, currentCommitmentId := none, timer := 0 })

/-- The Focus button of `CommitmentCard` (App.tsx line 859):
`disabled={commitment.completed || commitment.locked}` — the only place the
StartSession precondition is enforced. -/
def focusButtonDisabled (c : Commitment) : Bool :=
  c.completed || c.locked

/-- The score as the spec words it (§4.3): four independent additive terms —
+40 when the task list is non-empty and every task is completed, +20 when
focus time is positive, +20 when the trimmed reflection is non-empty, +20
when at least one task is locked (the no-edits-after-lock condition being
always true in the reference behavior). -/
def specScoreSum (day : DayData) : Nat :=
  (if day.commitments ≠ [] ∧ ∀ c ∈ day.commitments, c.completed = true then 40 else 0) +
  (if 0 < day.focusTime then 20 else 0) +
  (if jsTrim day.reflection ≠ "" then 20 else 0) +
  (if ∃ c ∈ day.commitments, c.locked = true then 20 else 0)

/-- Iterated `handleAddCommitment`: one call per entry of `inputs` (the
timestamp supplied to each call). -/
def runAddSeq (isPro : Bool) (inputs : List Nat) (s : DayData × UiState) :
    DayData × UiState :=
  inputs.foldl (fun s now => handleAddCommitment now isPro s.1 s.2) s

/-- Day-state equality ignoring the timestamp-derived fields `date` and
`lastUpdated`. -/
def eqModuloTimestamps (a b : DayData) : Prop :=
  a.commitments = b.commitments ∧ a.focusScore = b.focusScore ∧
  a.reflection = b.reflection ∧ a.morningQuestion = b.morningQuestion ∧
  a.completed = b.completed ∧ a.focusTime = b.focusTime

/-! ### Concrete fixtures -/

def lockedTask : Commitment :=
  { id := "1", text := "a", completed := false, timeSlot := none
    createdAt := 0, locked := true }

def dayWithLockedTask : DayData :=
  { date := "2025-01-01", commitments := [lockedTask], focusScore := 0
    reflection := "", morningQuestion := "", completed := false
    focusTime := 0, lastUpdated := 0 }

def completedTask : Commitment :=
  { id := "1", text := "t", completed := true, timeSlot := none
    createdAt := 0, locked := false }

def dayWithCompletedTask : DayData :=
  { date := "2025-01-01", commitments := [completedTask], focusScore := 0
    reflection := "", morningQuestion := "", completed := false
    focusTime := 0, lastUpdated := 0 }

def openTask : Commitment :=
  { id := "7", text := "write", completed := false, timeSlot := none
    createdAt := 0, locked := false }

def dayWithOpenTask : DayData :=
  { date := "2025-01-01", commitments := [openTask], focusScore := 0
    reflection := "", morningQuestion := "", completed := false
    focusTime := 0, lastUpdated := 0 }

def emptyDay : DayData :=
  { date := "2025-01-01", commitments := [], focusScore := 0
    reflection := "", morningQuestion := "", completed := false
    focusTime := 0, lastUpdated := 0 }

/-- The spec's score example: no tasks, 15 minutes of focus, reflection
"done". -/
def exampleScoreDay : DayData :=
  { date := "2025-01-01", commitments := [], focusScore := 0
    reflection := "done", morningQuestion := "", completed := false
    focusTime := 15, lastUpdated := 0 }

def threeTaskDay : DayData :=
  { date := "2025-01-01"
    commitments :=
      [{ id := "1", text := "a", completed := false, timeSlot := none
         createdAt := 0, locked := false },
       { id := "2", text := "b", completed := false, timeSlot := none
         createdAt := 0, locked := false },
       { id := "3", text := "c", completed := false, timeSlot := none
         createdAt := 0, locked := false }]
    focusScore := 0, reflection := "", morningQuestion := ""
    completed := false, focusTime := 0, lastUpdated := 0 }

def idleUi : UiState :=
  { showMorningModal := true, showReflectionModal := false
    showUpgradeModal := false, isDragging := false }

def idleFocus : FocusMode :=
  { isActive := false, currentCommitmentId := none, timer := 0 }

/-! ### Helper lemmas -/

lemma map_eq_self_of_fix {α : Type} (f : α → α) (l : List α)
    (h : ∀ x ∈ l, f x = x) : l.map f = l := by
  induction l with
  | nil => rfl
  | cons a t ih => simp_all

lemma length_filter_eq_length_iff {α : Type} (p : α → Bool) (l : List α) :
    (l.filter p).length = l.length ↔ ∀ a ∈ l, p a = true := by
  induction l with
  | nil => simp
  | cons a t ih =>
    by_cases hpa : p a = true
    · simp [List.filter_cons, hpa, ih]
    · simp only [List.filter_cons, hpa, if_neg, Bool.false_eq_true, if_false,
        List.length_cons]
      constructor
      · intro hlen
        exact absurd hlen (Nat.ne_of_lt (Nat.lt_succ_of_le (List.length_filter_le p t)))
      · intro hall
        exact absurd (hall a (List.mem_cons_self a t)) hpa

lemma string_len_pos_iff (s : String) : 0 < s.length ↔ s ≠ "" := by
  obtain ⟨data⟩ := s
  cases data <;> simp [String.length, String.ext_iff]

lemma allCompleted_iff (day : DayData) :
    ((commitmentsCountSelector day).completed = (commitmentsCountSelector day).total ∧
      0 < (commitmentsCountSelector day).total) ↔
    (day.commitments ≠ [] ∧ ∀ c ∈ day.commitments, c.completed = true) := by
  unfold commitmentsCountSelector
  constructor
  · rintro ⟨heq, hpos⟩
    exact ⟨List.length_pos.mp hpos, (length_filter_eq_length_iff _ _).mp heq⟩
  · rintro ⟨hne, hall⟩
    exact ⟨(length_filter_eq_length_iff _ _).mpr hall, List.length_pos.mpr hne⟩

lemma anyLocked_iff (day : DayData) :
    ((day.commitments.any fun c => c.locked) = true) ↔
    (∃ c ∈ day.commitments, c.locked = true) := by
  simp [List.any_eq_true]

lemma focusScoreSelector_eq_min_spec (day : DayData) :
    focusScoreSelector day = min (specScoreSum day) 100 := by
  simp only [focusScoreSelector, specScoreSum, Bool.not_false, Bool.and_true,
    allCompleted_iff, anyLocked_iff, string_len_pos_iff]
  split_ifs <;> rfl

lemma addCommitment_length_nonpro (now : Nat) (day : DayData) (ui : UiState)
    (h : day.commitments.length ≤ 3) :
    (handleAddCommitment now false day ui).1.commitments.length ≤ 3 := by
  unfold handleAddCommitment
  split_ifs with h1 h2
  · exact h
  · exact h
  · have hlt : day.commitments.length < 3 := by
      by_contra hge
      exact h1 ⟨by omega, rfl⟩
    simp only [List.length_append, List.length_cons, List.length_nil]
    omega

lemma addCommitment_length_le_four (now : Nat) (isPro : Bool) (day : DayData)
    (ui : UiState) (h : day.commitments.length ≤ 4) :
    (handleAddCommitment now isPro day ui).1.commitments.length ≤ 4 := by
  unfold handleAddCommitment
  split_ifs with h1 h2
  · exact h
  · exact h
  · simp only [not_le] at h2
    simp only [List.length_append, List.length_cons, List.length_nil]
    omega

lemma runAddSeq_inv (isPro : Bool) (P : Nat → Prop)
    (hstep : ∀ (now : Nat) (day : DayData) (ui : UiState),
      P day.commitments.length →
      P (handleAddCommitment now isPro day ui).1.commitments.length) :
    ∀ (inputs : List Nat) (s : DayData × UiState),
      P s.1.commitments.length →
      P (runAddSeq isPro inputs s).1.commitments.length := by
  intro inputs
  induction inputs with
  | nil => exact fun s hs => hs
  | cons a t ih => exact fun s hs => ih _ (hstep a s.1 s.2 hs)

/-! ### Claims -/

/-- C1: the claim says `UpdateTask`/`DeleteTask` on a locked task leave the
day state unchanged at the state-manager level.  The handlers contain no
lock check: on a day holding the single locked task `"1"` with text `"a"`,
`handleUpdateCommitment` rewrites the text to `"b"` and
`handleDeleteCommitment` empties the task list. -/
theorem C1_locked_edit_not_rejected :
    lockedTask.locked = true ∧
    (handleUpdateCommitment 1 "1" "b" dayWithLockedTask).commitments.map
      (fun c => c.text) = ["b"] ∧
    dayWithLockedTask.commitments.map (fun c => c.text) = ["a"] ∧
    (handleDeleteCommitment 1 "1" dayWithLockedTask).commitments = [] := by
  decide

/-- C4: when the chosen task exists and is not completed,
`handleStartFocusMode` locks every task, points the session at the chosen
id, sets the timer to 1500 seconds and activates the session. -/
theorem C4_startSession_effect (now : Nat) (id : String) (day : DayData)
    (h : ∃ c ∈ day.commitments, c.id = id ∧ c.completed = false) :
    (∀ c ∈ (handleStartFocusMode now id day).1.commitments, c.locked = true) ∧
    (handleStartFocusMode now id day).2.currentCommitmentId = some id ∧
    (handleStartFocusMode now id day).2.timer = 1500 ∧
    (handleStartFocusMode now id day).2.isActive = true := by
  refine ⟨?_, rfl, rfl, rfl⟩
  intro c hc
  simp only [handleStartFocusMode, List.mem_map] at hc
  obtain ⟨c₀, _, rfl⟩ := hc
  rfl

theorem C4_startSession_effect_witness :
    (∃ c ∈ dayWithOpenTask.commitments, c.id = "7" ∧ c.completed = false) ∧
    (handleStartFocusMode 5 "7" dayWithOpenTask).2.isActive = true := by
  refine ⟨⟨openTask, by decide, by decide, by decide⟩, ?_⟩
  exact (C4_startSession_effect 5 "7" dayWithOpenTask
    ⟨openTask, by decide, by decide, by decide⟩).2.2.2

/-- C5 counterexample: the claim says `StartSession` on a completed task is
refused at the state-manager level with no state change.  On a day holding
the single completed task `"1"`, `handleStartFocusMode 1 "1"` activates the
session and locks the task, changing both states. -/
theorem C5_completed_task_not_refused :
    completedTask.completed = true ∧
    (handleStartFocusMode 1 "1" dayWithCompletedTask).2.isActive = true ∧
    (handleStartFocusMode 1 "1" dayWithCompletedTask).1.commitments.map
      (fun c => c.locked) = [true] ∧
    dayWithCompletedTask.commitments.map (fun c => c.locked) = [false] := by
  decide

/-- C5 amended: `handleStartFocusMode` checks no precondition — for every
day state and every task id, absent or completed included, it locks every
task and starts the session; the precondition is enforced only by the
presentation layer, whose Focus button is disabled exactly when the task is
completed or locked. -/
theorem C5_startSession_unguarded (now : Nat) (id : String) (day : DayData) :
    (∀ c ∈ (handleStartFocusMode now id day).1.commitments, c.locked = true) ∧
    (handleStartFocusMode now id day).2 =
      { isActive := true, currentCommitmentId := some id, timer := 1500 } ∧
    (∀ c : Commitment, focusButtonDisabled c = (c.completed || c.locked)) := by
  refine ⟨?_, rfl, fun c => rfl⟩
  intro c hc
  simp only [handleStartFocusMode, List.mem_map] at hc
  obtain ⟨c₀, _, rfl⟩ := hc
  rfl

theorem C5_startSession_unguarded_witness :
    (handleStartFocusMode 1 "1" dayWithCompletedTask).2.timer = 1500 ∧
    focusButtonDisabled completedTask = true := by
  refine ⟨?_, ?_⟩
  · exact congrArg FocusMode.timer
      (C5_startSession_unguarded 1 "1" dayWithCompletedTask).2.1
  · rw [(C5_startSession_unguarded 1 "1" dayWithCompletedTask).2.2 completedTask]
    decide

/-- C6: stopping a running session with at most 1500 seconds remaining adds
exactly `25 - floor(timer / 60)` minutes to the accumulated focus time and
resets the session to idle. -/
theorem C6_stopSession_credit (now : Nat) (day : DayData) (f : FocusMode)
    (hact : f.isActive = true) (ht : f.timer ≤ 1500) :
    (handleStopFocusMode now day f).1.focusTime =
      day.focusTime + (25 - ((f.timer : Int) / 60)) ∧
    0 ≤ (25 - ((f.timer : Int) / 60)) ∧
    (handleStopFocusMode now day f).2 =
      { isActive := false, currentCommitmentId := none, timer := 0 } := by
  refine ⟨rfl, ?_, rfl⟩
  have h60 : ((f.timer : Int) / 60) ≤ 25 := by
    have : (f.timer : Int) ≤ 1500 := by exact_mod_cast ht
    omega
  omega

theorem C6_stopSession_credit_witness :
    (handleStopFocusMode 9 exampleScoreDay
        { isActive := true, currentCommitmentId := some "7", timer := 300 }).1.focusTime
      = 15 + 20 ∧
    (handleStopFocusMode 9 exampleScoreDay
        { isActive := true, currentCommitmentId := some "7", timer := 300 }).2.isActive
      = false := by
  have h := C6_stopSession_credit 9 exampleScoreDay
    { isActive := true, currentCommitmentId := some "7", timer := 300 }
    rfl (by decide)
  refine ⟨?_, ?_⟩
  · rw [h.1]; decide
  · rw [h.2.2]

/-- C8: `handleDailyReset` yields an empty task list, zero focus time, empty
reflection and morning question, `completed = false` and an idle focus
session regardless of the prior state; applying it twice equals applying it
once up to the timestamp-derived fields (`date`, `lastUpdated`). -/
theorem C8_resetDay_clears_and_idempotent (d d' : String) (n n' : Nat)
    (s : DayData × UiState × FocusMode) :
    ((handleDailyReset d n s).1.commitments = [] ∧
     (handleDailyReset d n s).1.focusTime = 0 ∧
     (handleDailyReset d n s).1.reflection = "" ∧
     (handleDailyReset d n s).1.morningQuestion = "" ∧
     (handleDailyReset d n s).1.completed = false ∧
     (handleDailyReset d n s).2.2 = idleFocus) ∧
    (eqModuloTimestamps (handleDailyReset d' n' (handleDailyReset d n s)).1
       (handleDailyReset d n s).1 ∧
     (handleDailyReset d' n' (handleDailyReset d n s)).2 =
       (handleDailyReset d n s).2) :=
  ⟨⟨rfl, rfl, rfl, rfl, rfl, rfl⟩, ⟨rfl, rfl, rfl, rfl, rfl, rfl⟩, rfl⟩

/-- C9: toggling the completion of a present task twice restores the task
list exactly (so every field of every task is back to its original value),
and changes no day-level field other than `lastUpdated`. -/
theorem C9_toggleComplete_involutive (n1 n2 : Nat) (id : String) (day : DayData)
    (h : ∃ c ∈ day.commitments, c.id = id) :
    (handleToggleComplete n2 id (handleToggleComplete n1 id day)).commitments =
      day.commitments ∧
    (handleToggleComplete n2 id (handleToggleComplete n1 id day)).date = day.date ∧
    (handleToggleComplete n2 id (handleToggleComplete n1 id day)).focusScore =
      day.focusScore ∧
    (handleToggleComplete n2 id (handleToggleComplete n1 id day)).reflection =
      day.reflection ∧
    (handleToggleComplete n2 id (handleToggleComplete n1 id day)).morningQuestion =
      day.morningQuestion ∧
    (handleToggleComplete n2 id (handleToggleComplete n1 id day)).completed =
      day.completed ∧
    (handleToggleComplete n2 id (handleToggleComplete n1 id day)).focusTime =
      day.focusTime ∧
    (handleToggleComplete n2 id (handleToggleComplete n1 id day)).lastUpdated = n2 := by
  refine ⟨?_, rfl, rfl, rfl, rfl, rfl, rfl, rfl⟩
  show (day.commitments.map _).map _ = day.commitments
  rw [List.map_map]
  apply map_eq_self_of_fix
  intro c _
  obtain ⟨cid, ctext, ccomp, cts, cca, clk⟩ := c
  by_cases hcid : cid = id
  · simp [Function.comp, hcid, Bool.not_not]
  · simp [Function.comp, hcid]

theorem C9_toggleComplete_involutive_witness :
    (∃ c ∈ dayWithOpenTask.commitments, c.id = "7") ∧
    (handleToggleComplete 3 "7" (handleToggleComplete 2 "7" dayWithOpenTask)).commitments =
      dayWithOpenTask.commitments :=
  ⟨⟨openTask, by decide, by decide⟩,
   (C9_toggleComplete_involutive 2 3 "7" dayWithOpenTask
     ⟨openTask, by decide, by decide⟩).1⟩

/-- C10: a task appended by `handleAddCommitment` always carries
`locked = false`; so after `handleStartFocusMode` locks everything and a
mid-session add succeeds (here: fewer than 3 tasks), the session is active
yet the newly appended last task is unlocked, refuting "every task locked"
as an invariant of the running-session state. -/
theorem C10_add_during_session_unlocked (n1 n2 : Nat) (isPro : Bool)
    (id : String) (day : DayData) (ui : UiState)
    (h : day.commitments.length < 3) :
    (handleStartFocusMode n1 id day).2.isActive = true ∧
    (∃ c, ((handleAddCommitment n2 isPro (handleStartFocusMode n1 id day).1
        ui).1.commitments.getLast?) = some c ∧ c.locked = false) ∧
    ¬ (∀ c ∈ (handleAddCommitment n2 isPro (handleStartFocusMode n1 id day).1
        ui).1.commitments, c.locked = true) := by
  have hlen : (handleStartFocusMode n1 id day).1.commitments.length =
      day.commitments.length := by
    simp [handleStartFocusMode]
  have hng1 : ¬(3 ≤ (handleStartFocusMode n1 id day).1.commitments.length ∧
      isPro = false) := by
    rw [hlen]; rintro ⟨h3, -⟩; omega
  have hng2 : ¬(4 ≤ (handleStartFocusMode n1 id day).1.commitments.length) := by
    rw [hlen]; omega
  have hform : (handleAddCommitment n2 isPro (handleStartFocusMode n1 id day).1
        ui).1.commitments =
      (handleStartFocusMode n1 id day).1.commitments ++
        [Commitment.mk (toString n2) "" false none n2 false] := by
    simp only [handleAddCommitment, if_neg hng1, if_neg hng2]
  refine ⟨rfl, ?_, ?_⟩
  · exact ⟨_, by rw [hform]; exact List.getLast?_concat _, rfl⟩
  · intro hall
    have hmem : Commitment.mk (toString n2) "" false none n2 false ∈
        (handleAddCommitment n2 isPro (handleStartFocusMode n1 id day).1
          ui).1.commitments := by
      rw [hform]
      exact List.mem_append_right _ (List.mem_singleton.mpr rfl)
    exact Bool.false_ne_true (hall _ hmem)

/-- C2: the score selector equals `min(sum, 100)` for the spec's four-term
sum and is at most 100 (it is a `Nat`, so at least 0); with an empty task
list the +40 and the lock terms vanish, so the score is just the focus-time
and reflection terms; the spec's example (no tasks, `focusTime = 15`,
`reflection = "done"`) scores 40. -/
theorem C2_focusScore_formula :
    (∀ day : DayData, focusScoreSelector day = min (specScoreSum day) 100 ∧
      focusScoreSelector day ≤ 100) ∧
    (∀ day : DayData, day.commitments = [] →
      focusScoreSelector day =
        (if 0 < day.focusTime then 20 else 0) +
        (if jsTrim day.reflection ≠ "" then 20 else 0)) ∧
    focusScoreSelector exampleScoreDay = 40 := by
  refine ⟨fun day => ⟨focusScoreSelector_eq_min_spec day, ?_⟩, ?_, by decide⟩
  · rw [focusScoreSelector_eq_min_spec day]
    exact min_le_right _ _
  · intro day h
    rw [focusScoreSelector_eq_min_spec day]
    simp only [specScoreSum, h]
    split_ifs <;> simp_all

theorem C2_focusScore_formula_witness :
    emptyDay.commitments = [] ∧ focusScoreSelector emptyDay = 0 :=
  ⟨rfl, by rw [C2_focusScore_formula.2.1 emptyDay rfl]; decide⟩

/-- C3: starting from at most 3 tasks, any sequence of adds keeps the count
at 3 on a non-privileged account and at 4 on a privileged one; a refused add
(count ≥ 3 non-privileged, or count ≥ 4 unconditionally) returns the day
state unchanged; the non-privileged refusal at count 3 raises the
upgrade-modal flag. -/
theorem C3_addTask_cap :
    (∀ (inputs : List Nat) (day : DayData) (ui : UiState),
      day.commitments.length ≤ 3 →
      (runAddSeq false inputs (day, ui)).1.commitments.length ≤ 3) ∧
    (∀ (inputs : List Nat) (day : DayData) (ui : UiState),
      day.commitments.length ≤ 3 →
      (runAddSeq true inputs (day, ui)).1.commitments.length ≤ 4) ∧
    (∀ (now : Nat) (isPro : Bool) (day : DayData) (ui : UiState),
      ((3 ≤ day.commitments.length ∧ isPro = false) ∨
        4 ≤ day.commitments.length) →
      (handleAddCommitment now isPro day ui).1 = day) ∧
    (∀ (now : Nat) (day : DayData) (ui : UiState),
      day.commitments.length = 3 →
      (handleAddCommitment now false day ui).2.showUpgradeModal = true) := by
  refine ⟨?_, ?_, ?_, ?_⟩
  · intro inputs day ui h
    exact runAddSeq_inv false (fun n => n ≤ 3)
      (fun now day ui => addCommitment_length_nonpro now day ui)
      inputs (day, ui) h
  · intro inputs day ui h
    exact runAddSeq_inv true (fun n => n ≤ 4)
      (fun now day ui => addCommitment_length_le_four now true day ui)
      inputs (day, ui) (le_trans h (by omega))
  · intro now isPro day ui href
    unfold handleAddCommitment
    rcases href with ⟨h3, hpro⟩ | h4
    · rw [if_pos ⟨h3, hpro⟩]
    · by_cases hc : 3 ≤ day.commitments.length ∧ isPro = false
      · rw [if_pos hc]
      · rw [if_neg hc, if_pos h4]
  · intro now day ui h3
    unfold handleAddCommitment
    rw [if_pos ⟨by omega, rfl⟩]

theorem C3_addTask_cap_witness :
    (runAddSeq false [1, 2, 3, 4, 5] (emptyDay, idleUi)).1.commitments.length ≤ 3 ∧
    (handleAddCommitment 9 false threeTaskDay idleUi).1 = threeTaskDay ∧
    (handleAddCommitment 9 false threeTaskDay idleUi).2.showUpgradeModal = true :=
  ⟨C3_addTask_cap.1 [1, 2, 3, 4, 5] emptyDay idleUi (by decide),
   C3_addTask_cap.2.2.1 9 false threeTaskDay idleUi (Or.inl ⟨by decide, rfl⟩),
   C3_addTask_cap.2.2.2 9 threeTaskDay idleUi (by decide)⟩

/-- C7: submitting a reflection whose trimmed text is empty is refused by
the modal (day and ui unchanged); a non-empty trimmed text sets the
reflection to the trimmed text, sets `completed = true` and stamps
`lastUpdated`; and no other operation ever turns day-level `completed`
to true (the reset even forces it back to false). -/
theorem C7_submitReflection_only_setter :
    (∀ (now : Nat) (text : String) (day : DayData) (ui : UiState),
      jsTrim text = "" → reflectionModalSubmit now text day ui = (day, ui)) ∧
    (∀ (now : Nat) (text : String) (day : DayData) (ui : UiState),
      jsTrim text ≠ "" →
        (reflectionModalSubmit now text day ui).1.reflection = jsTrim text ∧
        (reflectionModalSubmit now text day ui).1.completed = true ∧
        (reflectionModalSubmit now text day ui).1.lastUpdated = now) ∧
    (∀ (now : Nat) (isPro : Bool) (day : DayData) (ui : UiState),
      (handleAddCommitment now isPro day ui).1.completed = day.completed) ∧
    (∀ (now : Nat) (id text : String) (day : DayData),
      (handleUpdateCommitment now id text day).completed = day.completed) ∧
    (∀ (now : Nat) (id : String) (day : DayData),
      (handleDeleteCommitment now id day).completed = day.completed) ∧
    (∀ (now : Nat) (id : String) (day : DayData),
      (handleToggleComplete now id day).completed = day.completed) ∧
    (∀ (now : Nat) (id : String) (day : DayData),
      (handleStartFocusMode now id day).1.completed = day.completed) ∧
    (∀ (now : Nat) (day : DayData) (f : FocusMode),
      (handleStopFocusMode now day f).1.completed = day.completed) ∧
    (∀ (now : Nat) (ans : String) (day : DayData) (ui : UiState),
      (handleSubmitMorningQuestion now ans day ui).1.completed = day.completed) ∧
    (∀ (d : String) (n : Nat) (s : DayData × UiState × FocusMode),
      (handleDailyReset d n s).1.completed = false) := by
  refine ⟨?_, ?_, ?_, fun _ _ _ _ => rfl, fun _ _ _ => rfl, fun _ _ _ => rfl,
    fun _ _ _ => rfl, fun _ _ _ => rfl, fun _ _ _ _ => rfl, fun _ _ _ => rfl⟩
  · intro now text day ui h
    unfold reflectionModalSubmit
    rw [if_neg (fun hne => hne h)]
  · intro now text day ui h
    unfold reflectionModalSubmit
    rw [if_pos h]
    exact ⟨rfl, rfl, rfl⟩
  · intro now isPro day ui
    unfold handleAddCommitment
    split_ifs <;> rfl

theorem C7_submitReflection_only_setter_witness :
    jsTrim "   " = "" ∧
    reflectionModalSubmit 4 "   " emptyDay idleUi = (emptyDay, idleUi) ∧
    jsTrim " done " ≠ "" ∧
    (reflectionModalSubmit 4 " done " emptyDay idleUi).1.completed = true :=
  ⟨by decide,
   C7_submitReflection_only_setter.1 4 "   " emptyDay idleUi (by decide),
   by decide,
   (C7_submitReflection_only_setter.2.1 4 " done " emptyDay idleUi
     (by decide)).2.1⟩

theorem C10_add_during_session_unlocked_witness :
    dayWithOpenTask.commitments.length < 3 ∧
    ¬ (∀ c ∈ (handleAddCommitment 11 false
        (handleStartFocusMode 10 "7" dayWithOpenTask).1
        idleUi).1.commitments, c.locked = true) :=
  ⟨by decide,
   (C10_add_during_session_unlocked 10 11 false "7" dayWithOpenTask idleUi
     (by decide)).2.2⟩

end DailyFocus
